import Mathlib

/-!
Verification of the request-builder and response-decoding core of the
`aletheia` Guardian content-API client (`src/lib.rs`, `src/enums.rs`,
`src/error.rs`, `src/structs.rs`).

The HTTP transport (`reqwest`), the JSON codec (`serde`) and the URL type
are external collaborators: they are modeled as boundaries.  `send` is
modeled as a function of the builder state and of the already-decoded
response envelope, and it additionally reports whether control reached the
network call.  The `chrono` calendar/offset functions used by
`helpers::datetime` (`FixedOffset::east_opt` / `west_opt`,
`TimeZone::with_ymd_and_hms`, `DateTime::to_rfc3339`) are embedded in the
`Chrono` namespace.  Rust `i32` arithmetic on the timezone argument
(`timezone.abs() * 3600`) is modeled as two's-complement 32-bit wrapping
arithmetic (release-profile semantics).
-/

namespace Aletheia

/-! ### RequestState

`GuardianRequestBuilder.request` is a `HashMap<String, String>`.  It is
modeled as an association list whose insert operation overwrites the value
of an existing key in place, which is observationally the map semantics of
`HashMap::insert`.  `lookupKV` models `HashMap::get`. -/

abbrev RequestState := List (String × String)

/-- `HashMap::insert`: if the key is already bound, replace its value;
otherwise add the binding. -/
def insertKV : RequestState → String → String → RequestState
  | [], k, v => [(k, v)]
  | (k0, v0) :: rest, k, v =>
    if k0 = k then (k, v) :: rest else (k0, v0) :: insertKV rest k v

/-- `HashMap::get`. -/
def lookupKV : RequestState → String → Option String
  | [], _ => none
  | (k0, v0) :: rest, k => if k0 = k then some v0 else lookupKV rest k

/-- The multiset of keys currently bound. -/
def keysOf (st : RequestState) : List String := st.map Prod.fst

/-! ### `src/enums.rs`

Each enum derives a strum `Display`; the derived wire token of each
variant (kebab-case, or camelCase for `Field`) is spelled out in the
corresponding `display` function. -/

namespace Enums

inductive OrderBy where
  | Newest
  | Oldest
  | Relevance
deriving DecidableEq

/-- strum `Display`, kebab-case. -/
def OrderBy.display : OrderBy → String
  | .Newest => "newest"
  | .Oldest => "oldest"
  | .Relevance => "relevance"

inductive OrderDate where
  | Published
  | NewspaperEdition
  | LastModified
deriving DecidableEq

/-- strum `Display`, kebab-case. -/
def OrderDate.display : OrderDate → String
  | .Published => "published"
  | .NewspaperEdition => "newspaper-edition"
  | .LastModified => "last-modified"

inductive UseDate where
  | Published
  | FirstPublication
  | NewspaperEdition
  | LastModified
deriving DecidableEq

/-- strum `Display`, kebab-case. -/
def UseDate.display : UseDate → String
  | .Published => "published"
  | .FirstPublication => "first-publication"
  | .NewspaperEdition => "newspaper-edition"
  | .LastModified => "last-modified"

inductive Field where
  | TrailText
  | Headline
  | ShowInRelatedContent
  | Body
  | BodyText
  | LastModified
  | HasStoryPackage
  | Score
  | Standfirst
  | ShortUrl
  | Byline
  | Thumbnail
  | Wordcount
  | Commentable
  | IsPremoderated
  | AllowUgc
  | Publication
  | InternalPageCode
  | ProductionOffice
  | ShouldHideAdverts
  | LiveBloggingNow
  | CommentCloseDate
  | StarRating
  | All
deriving DecidableEq

/-- strum `Display`, camelCase. -/
def Field.display : Field → String
  | .TrailText => "trailText"
  | .Headline => "headline"
  | .ShowInRelatedContent => "showInRelatedContent"
  | .Body => "body"
  | .BodyText => "bodyText"
  | .LastModified => "lastModified"
  | .HasStoryPackage => "hasStoryPackage"
  | .Score => "score"
  | .Standfirst => "standfirst"
  | .ShortUrl => "shortUrl"
  | .Byline => "byline"
  | .Thumbnail => "thumbnail"
  | .Wordcount => "wordcount"
  | .Commentable => "commentable"
  | .IsPremoderated => "isPremoderated"
  | .AllowUgc => "allowUgc"
  | .Publication => "publication"
  | .InternalPageCode => "internalPageCode"
  | .ProductionOffice => "productionOffice"
  | .ShouldHideAdverts => "shouldHideAdverts"
  | .LiveBloggingNow => "liveBloggingNow"
  | .CommentCloseDate => "commentCloseDate"
  | .StarRating => "starRating"
  | .All => "all"

inductive Tag where
  | Blog
  | Contributor
  | Keyword
  | NewspaperBook
  | NewspaperBookSection
  | Publication
  | Series
  | Tone
  | Type
  | All
deriving DecidableEq

/-- strum `Display`, kebab-case. -/
def Tag.display : Tag → String
  | .Blog => "blog"
  | .Contributor => "contributor"
  | .Keyword => "keyword"
  | .NewspaperBook => "newspaper-book"
  | .NewspaperBookSection => "newspaper-book-section"
  | .Publication => "publication"
  | .Series => "series"
  | .Tone => "tone"
  | .Type => "type"
  | .All => "all"

/-- `enums::Block` (the `show-blocks` selector; the borrowed `&str`
payloads become `String`, `i32` and `i64` payloads become `Int`). -/
inductive Block where
  | Main
  | Body
  | All
  | BodyLatest
  | BodyLatestWith (n : Int)
  | BodyOldest
  | BodyOldestWith (n : Int)
  | BodyBlockId (id : String)
  | BodyAroundBlockId (id : String)
  | BodyAroundBlockIdWith (id : String) (n : Int)
  | BodyKeyEvents
  | BodyPublishedSince (n : Int)
deriving DecidableEq

/-- strum `Display`, kebab-case on the variant name (payloads are not
rendered; `generate_blocks` only ever calls it on `Main`, `Body`, `All`). -/
def Block.display : Block → String
  | .Main => "main"
  | .Body => "body"
  | .All => "all"
  | .BodyLatest => "body-latest"
  | .BodyLatestWith _ => "body-latest-with"
  | .BodyOldest => "body-oldest"
  | .BodyOldestWith _ => "body-oldest-with"
  | .BodyBlockId _ => "body-block-id"
  | .BodyAroundBlockId _ => "body-around-block-id"
  | .BodyAroundBlockIdWith _ _ => "body-around-block-id-with"
  | .BodyKeyEvents => "body-key-events"
  | .BodyPublishedSince _ => "body-published-since"

inductive Endpoint where
  | Content
  | Tags
  | Sections
  | Editions
  | SingleItem
deriving DecidableEq

/-- strum `Display`, kebab-case. -/
def Endpoint.display : Endpoint → String
  | .Content => "content"
  | .Tags => "tags"
  | .Sections => "sections"
  | .Editions => "editions"
  | .SingleItem => "single-item"

/-- `Endpoint` derives `Default` with `#[default]` on `Content`. -/
def Endpoint.default : Endpoint := .Content

/-- The `IsAll` trait: whether a value matches the `All` variant. -/
class IsAll (α : Type) where
  is_all : α → Bool

instance : IsAll Field := ⟨fun f => f = Field.All⟩

instance : IsAll Tag := ⟨fun t => t = Tag.All⟩

instance : IsAll Block := ⟨fun b => b = Block.All⟩

instance : ToString Field := ⟨Field.display⟩

instance : ToString Tag := ⟨Tag.display⟩

instance : ToString Block := ⟨Block.display⟩

end Enums

/-! ### `mod helpers`: sequence/wildcard encoders -/

namespace helpers

open Enums

/-- The loop body of `helpers::generate_sequence`: walks the items carrying
the accumulated `sequence` string and the `first` flag, returning `"all"`
as soon as an item with `is_all` is met. -/
def generate_sequence_loop {α : Type} [ToString α] [IsAll α] :
    List α → String → Bool → String
  | [], sequence, _ => sequence
  | item :: rest, sequence, first =>
    if IsAll.is_all item then "all"
    else
      generate_sequence_loop rest
        (sequence ++ (if !first then "," else "") ++ toString item) false

/-- `helpers::generate_sequence`. -/
def generate_sequence {α : Type} [ToString α] [IsAll α] (items : List α) : String :=
  generate_sequence_loop items "" true

/-- The match inside the closure of `helpers::generate_blocks`, mapping one
`enums::Block` selector to its wire string. -/
def encode_block : Block → String
  | .Main => Block.display .Main
  | .Body => Block.display .Body
  | .All => Block.display .All
  | .BodyLatest => "body:latest"
  | .BodyLatestWith n => "body:latest:" ++ toString n
  | .BodyOldest => "body:latest"
  | .BodyOldestWith n => "body:oldest:" ++ toString n
  | .BodyBlockId id => "body:" ++ id
  | .BodyAroundBlockId id => "body:around:" ++ id
  | .BodyAroundBlockIdWith id n => "body:around:" ++ id ++ ":" ++ toString n
  | .BodyKeyEvents => "body:key-events"
  | .BodyPublishedSince n => "body:published-since:" ++ toString n

/-- `helpers::generate_blocks` (`Vec::join(",")` is `String.intercalate ","`). -/
def generate_blocks (items : List Block) : String :=
  if Block.All ∈ items then "all"
  else String.intercalate "," (items.map encode_block)

end helpers

/-! ### The `chrono` collaborator

Model of the parts of `chrono` used by `helpers::datetime`:
`FixedOffset::east_opt` / `west_opt`, `FixedOffset::with_ymd_and_hms`
(which for a fixed offset yields `LocalResult::Single` exactly when the
calendar date-time is valid and the shifted UTC instant stays inside the
`NaiveDateTime` range) and `DateTime::to_rfc3339`.  A fixed offset is its
`local_minus_utc` value in seconds (an `Int`).  Rust `i32` arithmetic is
modeled with two's-complement wrapping. -/

namespace Chrono

/-- Interpret an integer as a two's-complement 32-bit value. -/
def wrap32 (n : Int) : Int := (n + 2147483648) % 4294967296 - 2147483648

/-- `i32::abs` (wrapping at `i32::MIN`, as in a release build). -/
def i32_abs (n : Int) : Int := wrap32 (Int.natAbs n)

/-- `i32` multiplication (wrapping, as in a release build). -/
def i32_mul (a b : Int) : Int := wrap32 (a * b)

/-- `FixedOffset::east_opt`: `Some` exactly for `-86400 < secs < 86400`,
yielding `local_minus_utc = secs`. -/
def east_opt (secs : Int) : Option Int :=
  if -86400 < secs ∧ secs < 86400 then some secs else none

/-- `FixedOffset::west_opt`: `Some` exactly for `-86400 < secs < 86400`,
yielding `local_minus_utc = -secs`. -/
def west_opt (secs : Int) : Option Int :=
  if -86400 < secs ∧ secs < 86400 then some (-secs) else none

/-- Proleptic-Gregorian leap year. -/
def is_leap_year (y : Int) : Bool := y % 4 == 0 && (y % 100 != 0 || y % 400 == 0)

def days_in_month (y : Int) (m : Nat) : Nat :=
  if m = 1 ∨ m = 3 ∨ m = 5 ∨ m = 7 ∨ m = 8 ∨ m = 10 ∨ m = 12 then 31
  else if m = 4 ∨ m = 6 ∨ m = 9 ∨ m = 11 then 30
  else if is_leap_year y then 29
  else 28

/-- `NaiveDate::from_ymd_opt` succeeds: the year is within chrono's
representable range (`i32::MIN >> 13` to `i32::MAX >> 13`) and the
month/day denote a real calendar date. -/
def valid_ymd (y : Int) (m d : Nat) : Bool :=
  decide (-262144 ≤ y) && decide (y ≤ 262143) &&
  decide (1 ≤ m) && decide (m ≤ 12) &&
  decide (1 ≤ d) && decide (d ≤ days_in_month y m)

/-- `NaiveTime::from_hms_opt` succeeds. -/
def valid_hms (h mi s : Nat) : Bool := h < 24 && mi < 60 && s < 60

/-- Days since 1970-01-01 of a proleptic-Gregorian date
(Howard Hinnant's `days_from_civil`; `/` on `Int` is floor division for
these positive divisors). -/
def days_from_civil (y : Int) (m d : Nat) : Int :=
  let yv : Int := if m ≤ 2 then y - 1 else y
  let era : Int := yv / 400
  let yoe : Int := yv - era * 400
  let mp : Int := if 2 < m then (m : Int) - 3 else (m : Int) + 9
  let doy : Int := (153 * mp + 2) / 5 + (d : Int) - 1
  let doe : Int := yoe * 365 + yoe / 4 - yoe / 100 + doy
  era * 146097 + doe - 719468

/-- Seconds since epoch of `NaiveDateTime::MIN` (`-262144-01-01T00:00:00`). -/
def min_utc_secs : Int := days_from_civil (-262144) 1 1 * 86400

/-- Seconds since epoch of `NaiveDateTime::MAX` truncated to seconds
(`262143-12-31T23:59:59`). -/
def max_utc_secs : Int := days_from_civil 262143 12 31 * 86400 + 86399

/-- Seconds since epoch of the UTC instant denoted by the local date-time
at the given fixed offset (`local - offset`). -/
def utc_secs (offset : Int) (y : Int) (m d h mi s : Nat) : Int :=
  days_from_civil y m d * 86400 + (h : Int) * 3600 + (mi : Int) * 60 + (s : Int) - offset

/-- `offset.with_ymd_and_hms(..) = LocalResult::Single(..)`: for a fixed
offset the local mapping is never ambiguous, so the result is `Single`
exactly when the calendar date-time is valid and the UTC instant obtained
by subtracting the offset stays inside the `NaiveDateTime` range. -/
def with_ymd_and_hms_is_single (offset : Int) (y : Int) (m d h mi s : Nat) : Bool :=
  valid_ymd y m d && valid_hms h mi s &&
  decide (min_utc_secs ≤ utc_secs offset y m d h mi s) &&
  decide (utc_secs offset y m d h mi s ≤ max_utc_secs)

/-- Zero-pad to two digits. -/
def pad2 (n : Nat) : String := if n < 10 then "0" ++ toString n else toString n

/-- Zero-pad to four digits. -/
def pad4 (n : Nat) : String :=
  if n < 10 then "000" ++ toString n
  else if n < 100 then "00" ++ toString n
  else if n < 1000 then "0" ++ toString n
  else toString n

/-- RFC 3339 year field: four digits, sign-prefixed outside `0..=9999`. -/
def format_year (y : Int) : String :=
  if y < 0 then "-" ++ pad4 y.natAbs
  else if y ≤ 9999 then pad4 y.natAbs
  else "+" ++ toString y

/-- RFC 3339 offset suffix for a whole-second fixed offset; sub-minute
components do not occur in an RFC 3339 rendering and are truncated. -/
def offset_to_string (off : Int) : String :=
  (if off < 0 then "-" else "+") ++
  pad2 (off.natAbs / 3600) ++ ":" ++ pad2 (off.natAbs % 3600 / 60)

/-- `DateTime::<FixedOffset>::to_rfc3339` with zero nanoseconds: the local
calendar fields followed by the offset suffix. -/
def to_rfc3339 (y : Int) (m d h mi s : Nat) (offset : Int) : String :=
  format_year y ++ "-" ++ pad2 m ++ "-" ++ pad2 d ++ "T" ++
  pad2 h ++ ":" ++ pad2 mi ++ ":" ++ pad2 s ++ offset_to_string offset

end Chrono

namespace helpers

/-- The offset computed by the first half of `helpers::datetime`:
`east_opt`/`west_opt` on `timezone.abs() * 3600` depending on the sign of
`timezone`, with the out-of-range fallback
`FixedOffset::west_opt(0).unwrap()` (the zero offset). -/
def resolved_offset (timezone : Int) : Int :=
  let secs := Chrono.i32_mul (Chrono.i32_abs timezone) 3600
  match (if 0 ≤ timezone then Chrono.east_opt secs else Chrono.west_opt secs) with
  | some o => o
  | none => 0

/-- `helpers::datetime`: format the local date-time at the resolved offset
as RFC 3339, or return the empty string when `with_ymd_and_hms` does not
yield `LocalResult::Single`. -/
def datetime (year : Int) (month day hour minute sec : Nat) (timezone : Int) : String :=
  let offset := resolved_offset timezone
  if Chrono.with_ymd_and_hms_is_single offset year month day hour minute sec then
    Chrono.to_rfc3339 year month day hour minute sec offset
  else
    ""

end helpers

/-! ### `src/error.rs`

`Error::ClientError` (a wrapped `reqwest::Error`) and `Error::JoinError`
(a wrapped `tokio::task::JoinError`) belong to the transport collaborator
and cannot arise in the decoded-envelope model of `send`, so only the two
locally-produced variants are embedded. -/

inductive Error where
  | MissingQueryParameter (param : String)
  | ApiError (msg : String)
deriving DecidableEq

/-! ### `src/structs.rs`

The decoded response model.  `chrono::DateTime<Utc>` leaves are decoded
timestamps and are modeled by their wire strings; `serde_json::Value`
leaves are arbitrary JSON. -/

namespace Structs

/-- A decoded `chrono::DateTime<Utc>` leaf, modeled by its wire string. -/
abbrev UtcDateTime := String

/-- `serde_json::Value`. -/
inductive Json where
  | null
  | bool (b : Bool)
  | num (n : Int)
  | str (s : String)
  | arr (elems : List Json)
  | obj (fields : List (String × Json))

structure Fields where
  byline : Option String
  short_url : Option String
  trail_text : Option String
  headline : Option String
  body : Option String
  last_modified : Option UtcDateTime
  has_story_package : Option String
  score : Option String
  standfirst : Option String
  show_in_related_content : Option String
  thumbnail : Option String
  wordcount : Option String
  commentable : Option String
  is_premoderated : Option String
  allow_ugc : Option String
  publication : Option String
  internal_page_code : Option String
  production_office : Option String
  should_hide_adverts : Option String
  live_blogging_now : Option String
  comment_close_date : Option UtcDateTime
  star_rating : Option String

structure Reference where
  id : String
  type : String

structure Tags where
  id : String
  type : String
  web_title : String
  web_url : String
  api_url : String
  references : List Reference
  ( bio : Option String)
  byline_image_url : Option String
  byline_large_image_url : Option String
  first_name : Option String
  last_name : Option String
  email_address : Option String
  twitter_handle : Option String
  section_id : Option String
  section_name : Option String
  description : Option String
  paid_content_type : Option String
  paid_content_type_campaign_colour : Option String
  rcs_id : Option String
  r2_contributor_id : Option String
  tag_categories : Option (List String)
  entity_ids : Option (List String)
  campaign_information_type : Option String
  internal_name : Option String

structure Edition where
  id : String
  web_title : String
  web_url : String
  api_url : String
  code : String

structure Section where
  id : String
  web_title : String
  web_url : String
  api_url : String
  editions : List Edition

structure TextElementFields where
  html : Option String
  role : Option String

structure VideoElementFields where
  url : Option String
  description : Option String
  title : Option String
  html : Option String
  source : Option String
  credit : Option String
  caption : Option String
  height : Option Int
  width : Option Int
  duration : Option Int
  content_auth_system : Option String
  embeddable : Option String
  is_inappropriate_for_adverts : Option Bool
  media_id : Option String
  still_image_url : Option String
  thumbnail_url : Option String
  short_url : Option String
  role : Option String
  original_url : Option String
  source_domain : Option String

structure TweetElementFields where
  source : Option String
  url : Option String
  id : Option String
  html : Option String
  original_url : Option String
  role : Option String
  source_domain : Option String

structure ImageElementFields where
  caption : Option String
  copyright : Option String
  display_credit : Option Bool
  credit : Option String
  source : Option String
  photographer : Option String
  alt : Option String
  media_id : Option String
  media_api_uri : Option String
  picdar_urn : Option String
  suppliers_reference : Option String
  image_type : Option String
  comment : Option String
  role : Option String

structure AudioElementFields where
  html : Option String
  source : Option String
  description : Option String
  title : Option String
  credit : Option String
  caption : Option String
  duration_minutes : Option Int
  duration_seconds : Option Int
  clean : Option Bool
  explicit : Option Bool
  role : Option String
  source_domain : Option String

structure PullquoteElementFields where
  html : Option String
  attribution : Option String
  role : Option String
  source : Option String
  source_domain : Option String

structure InteractiveElementFields where
  url : Option String
  original_url : Option String
  source : Option String
  caption : Option String
  alt : Option String
  script_url : Option String
  html : Option String
  script_name : Option String
  iframe_url : Option String
  role : Option String
  is_mandatory : Option Bool
  source_domain : Option String

structure StandardElementFields where
  url : Option String
  original_url : Option String
  source : Option String
  title : Option String
  description : Option String
  credit : Option String
  caption : Option String
  width : Option Int
  height : Option Int
  html : Option String
  role : Option String
  is_mandatory : Option Bool
  source_domain : Option String

structure WitnessElementFields where
  url : Option String
  original_url : Option String
  witness_embed_type : Option String
  media_id : Option String
  source : Option String
  title : Option String
  description : Option String
  author_name : Option String
  author_username : Option String
  author_witness_profile_url : Option String
  author_guardian_profile_url : Option String
  caption : Option String
  alt : Option String
  width : Option Int
  height : Option Int
  html : Option String
  api_url : Option String
  photographer : Option String
  date_created : Option UtcDateTime
  youtube_url : Option String
  youtube_source : Option String
  youtube_title : Option String
  youtube_description : Option String
  youtube_author_name : Option String
  youtube_html : Option String
  role : Option String
  source_domain : Option String

structure RichLinkElementFields where
  url : Option String
  original_url : Option String
  link_text : Option String
  ( link_prefix : Option String)
  role : Option String
  sponsorship : Option String

structure MembershipElementFields where
  original_url : Option String
  link_text : Option String
  ( link_prefix : Option String)
  title : Option String
  venue : Option String
  location : Option String
  identifier : Option String
  image : Option String
  price : Option String
  start : Option UtcDateTime
  «end» : Option UtcDateTime
  role : Option String

structure EmbedElementFields where
  html : Option String
  safe_embed_code : Option Bool
  alt : Option String
  is_mandatory : Option Bool
  role : Option String
  source : Option String
  source_domain : Option String
  caption : Option String

structure InstagramElementFields where
  original_url : String
  title : String
  source : String
  author_url : String
  author_username : String
  html : Option String
  width : Option Int
  alt : Option String
  caption : Option String
  role : Option String
  source_domain : Option String

structure CommentElementFields where
  source : Option String
  discussion_key : Option String
  comment_url : Option String
  original_url : Option String
  source_url : Option String
  discussion_url : Option String
  author_url : Option String
  html : Option String
  author_name : Option String
  comment_id : Option Int
  role : Option String

structure VineElementFields where
  original_url : String
  title : String
  source : String
  author_url : String
  author_username : String
  html : Option String
  width : Option Int
  height : Option Int
  alt : Option String
  caption : Option String
  role : Option String
  source_domain : Option String

structure ContentAtomElementFields where
  atom_id : String
  atom_type : String
  role : Option String

structure EmbedTracking where
  tracks : String

structure CodeElementFields where
  html : String
  language : String

structure AssetFields where
  ( aspect_ratio : Option String)
  alt_text : Option String
  is_inappropriate_for_adverts : Option Bool
  caption : Option String
  credit : Option String
  embeddable : Option Bool
  photographer : Option String
  source : Option String
  still_image_url : Option String
  width : Option Int
  height : Option Int
  name : Option String
  secure_file : Option String
  is_master : Option Bool
  size_in_bytes : Option Int
  duration_minutes : Option Int
  duration_seconds : Option Int
  display_credit : Option Bool
  thumbnail_url : Option String
  role : Option String
  media_id : Option String
  iframe_url : Option String
  script_name : Option String
  script_url : Option String
  block_ads : Option Bool
  html : Option String
  embed_type : Option String
  explicit : Option Bool
  clean : Option Bool
  thumbnail_image_url : Option String
  link_text : Option String
  ( link_prefix : Option String)
  short_url : Option String
  image_type : Option String
  suppliers_reference : Option String
  media_api_uri : Option String
  copyright : Option String
  mime_type : Option String
  url : Option String
  original_url : Option String
  id : Option String
  attribution : Option String
  description : Option String
  title : Option String
  content_auth_system : Option String
  alt : Option String
  picdar_urn : Option String
  comment : Option String
  witness_embed_type : Option String
  author_name : Option String
  author_username : Option String
  author_witness_profile_url : Option String
  author_guardian_profile_url : Option String
  api_url : Option String
  date_created : Option Json
  youtube_url : Option String
  youtube_source : Option String
  youtube_title : Option String
  youtube_description : Option String
  youtube_author_name : Option String
  youtube_html : Option String
  venue : Option String
  location : Option String
  identifier : Option String
  price : Option String
  start : Option UtcDateTime
  «end» : Option UtcDateTime
  safe_embed_code : Option Bool

structure Asset where
  type : String
  mime_type : Option String
  file : Option String
  type_data : Option AssetFields

structure BlockElement where
  type : String
  assets : List Asset
  text_type_data : Option TextElementFields
  video_type_data : Option VideoElementFields
  tweet_type_data : Option TweetElementFields
  image_type_data : Option ImageElementFields
  audio_type_data : Option AudioElementFields
  pullquote_type_data : Option PullquoteElementFields
  interactive_type_data : Option InteractiveElementFields
  map_type_data : Option StandardElementFields
  document_type_data : Option StandardElementFields
  table_type_data : Option StandardElementFields
  witness_type_data : Option WitnessElementFields
  rich_link_type_data : Option RichLinkElementFields
  membership_type_data : Option MembershipElementFields
  embed_type_data : Option EmbedElementFields
  instagram_type_data : Option InstagramElementFields
  comment_type_data : Option CommentElementFields
  vine_type_data : Option VineElementFields
  content_atom_type_data : Option ContentAtomElementFields
  tracking : Option EmbedTracking
  code_type_data : Option CodeElementFields

structure MembershipPlaceholder where
  campaign_code : Option String

structure BlockAttributes where
  key_event : Option Bool
  summary : Option Bool
  title : Option String
  pinned : Option Bool
  membership_placeholder : Option MembershipPlaceholder

structure User where
  email : Option String
  first_name : Option String
  last_name : Option String

/-- `structs::Block` (a unit of decoded content body; distinct from the
`enums::Block` request selector, exactly as in the source). -/
structure Block where
  id : String
  body_html : String
  body_text_summary : String
  title : Option String
  attributes : BlockAttributes
  published : Bool
  created_date : Option Json
  first_published_date : Option Json
  published_date : Option Json
  last_modified_date : Option Json
  contributors : List String
  created_by : Option User
  last_modified_by : Option User
  elements : List BlockElement

/-- `structs::Blocks` (`BTreeMap<String, Vec<Block>>` is a key-ordered map,
modeled as an association list). -/
structure Blocks where
  main : Option Block
  body : Option (List Block)
  total_body_blocks : Option Int
  requested_body_blocks : Option (List (String × List Block))

structure SearchResult where
  id : String
  type : String
  section_id : String
  section_name : String
  web_publication_date : UtcDateTime
  web_title : String
  web_url : String
  api_url : String
  is_hosted : Bool
  pillar_id : Option String
  pillar_name : Option String
  fields : Option Fields
  tags : Option (List Tags)
  «section» : Option Section
  blocks : Option Blocks

/-- `structs::SearchResponse`: the success payload. -/
structure SearchResponse where
  status : Option String
  user_tier : Option String
  total : Option Nat
  start_index : Option Nat
  page_size : Option Nat
  current_page : Option Nat
  pages : Option Nat
  order_by : Option String
  results : Option (List SearchResult)
  message : Option String

/-- `structs::Response`: the decoded top-level envelope. -/
structure Response where
  message : Option String
  response : Option SearchResponse

end Structs

namespace helpers

/-- `helpers::mock_response`: the empty/default payload (every field
absent).  The source text additionally writes a `content: None` field that
has no counterpart in `structs::SearchResponse`; the intent — a payload
with every field `None` — is what is embedded. -/
def mock_response : Structs.SearchResponse where
  status := none
  user_tier := none
  total := none
  start_index := none
  page_size := none
  current_page := none
  pages := none
  order_by := none
  results := none
  message := none

end helpers

/-! ### `GuardianRequestBuilder` and its parameter-setting methods

`http_client` and `base_url` are transport collaborators; `base_url` is
the fixed constant `https://content.guardianapis.com` and never varies, so
neither is part of the state the claims can observe. -/

structure GuardianRequestBuilder where
  api_key : String
  request : RequestState
  endpoint : Enums.Endpoint

/-- `GuardianContentClient::build_request` (given the client's key). -/
def build_request (api_key : String) : GuardianRequestBuilder where
  api_key := api_key
  request := []
  endpoint := Enums.Endpoint.default

def GuardianRequestBuilder.set_endpoint (self : GuardianRequestBuilder)
    (endpoint : Enums.Endpoint) : GuardianRequestBuilder :=
  { self with endpoint := endpoint }

def GuardianRequestBuilder.search (self : GuardianRequestBuilder)
    (q : String) : GuardianRequestBuilder :=
  { self with request := insertKV self.request "q" q }

def GuardianRequestBuilder.page (self : GuardianRequestBuilder)
    (page : Nat) : GuardianRequestBuilder :=
  { self with request := insertKV self.request "page" (toString page) }

def GuardianRequestBuilder.page_size (self : GuardianRequestBuilder)
    (page : Nat) : GuardianRequestBuilder :=
  { self with request := insertKV self.request "page-size" (toString page) }

def GuardianRequestBuilder.order_by (self : GuardianRequestBuilder)
    (order_by : Enums.OrderBy) : GuardianRequestBuilder :=
  { self with request := insertKV self.request "order-by" order_by.display }

def GuardianRequestBuilder.order_date (self : GuardianRequestBuilder)
    (order_date : Enums.OrderDate) : GuardianRequestBuilder :=
  { self with request := insertKV self.request "order-date" order_date.display }

def GuardianRequestBuilder.show_fields (self : GuardianRequestBuilder)
    (show_fields : List Enums.Field) : GuardianRequestBuilder :=
  { self with
    request := insertKV self.request "show-fields" (helpers.generate_sequence show_fields) }

def GuardianRequestBuilder.show_tags (self : GuardianRequestBuilder)
    (show_tags : List Enums.Tag) : GuardianRequestBuilder :=
  { self with
    request := insertKV self.request "show-tags" (helpers.generate_sequence show_tags) }

def GuardianRequestBuilder.query_fields (self : GuardianRequestBuilder)
    (query_fields : List Enums.Field) : GuardianRequestBuilder :=
  { self with
    request := insertKV self.request "query-fields" (helpers.generate_sequence query_fields) }

/-- `date_from`: `format!("{year}-{month}-{day}")`. -/
def GuardianRequestBuilder.date_from (self : GuardianRequestBuilder)
    (year : Int) (month day : Nat) : GuardianRequestBuilder :=
  { self with
    request := insertKV self.request "from-date"
      (toString year ++ "-" ++ toString month ++ "-" ++ toString day) }

/-- `datetime_from`: the key is only written when the formatted result is
non-empty (`if !formatted_datetime.is_empty()`). -/
def GuardianRequestBuilder.datetime_from (self : GuardianRequestBuilder)
    (year : Int) (month day hour min sec : Nat) (timezone : Int) :
    GuardianRequestBuilder :=
  let formatted_datetime := helpers.datetime year month day hour min sec timezone
  if formatted_datetime = "" then self
  else { self with request := insertKV self.request "from-date" formatted_datetime }

/-- `date_to`: `format!("{year}-{month}-{day}")`. -/
def GuardianRequestBuilder.date_to (self : GuardianRequestBuilder)
    (year : Int) (month day : Nat) : GuardianRequestBuilder :=
  { self with
    request := insertKV self.request "to-date"
      (toString year ++ "-" ++ toString month ++ "-" ++ toString day) }

/-- `datetime_to`: the key is only written when the formatted result is
non-empty (`if !formatted_datetime.is_empty()`). -/
def GuardianRequestBuilder.datetime_to (self : GuardianRequestBuilder)
    (year : Int) (month day hour min sec : Nat) (timezone : Int) :
    GuardianRequestBuilder :=
  let formatted_datetime := helpers.datetime year month day hour min sec timezone
  if formatted_datetime = "" then self
  else { self with request := insertKV self.request "to-date" formatted_datetime }

def GuardianRequestBuilder.use_date (self : GuardianRequestBuilder)
    (use_date : Enums.UseDate) : GuardianRequestBuilder :=
  { self with request := insertKV self.request "use-date" use_date.display }

def GuardianRequestBuilder.show_section (self : GuardianRequestBuilder)
    (show_section : Bool) : GuardianRequestBuilder :=
  { self with request := insertKV self.request "show-section" (toString show_section) }

def GuardianRequestBuilder.«section» (self : GuardianRequestBuilder)
    («section» : String) : GuardianRequestBuilder :=
  { self with request := insertKV self.request "section" «section» }

def GuardianRequestBuilder.reference (self : GuardianRequestBuilder)
    (reference : String) : GuardianRequestBuilder :=
  { self with request := insertKV self.request "reference" reference }

def GuardianRequestBuilder.reference_type (self : GuardianRequestBuilder)
    (reference_type : String) : GuardianRequestBuilder :=
  { self with request := insertKV self.request "reference-type" reference_type }

def GuardianRequestBuilder.tag (self : GuardianRequestBuilder)
    (tag : String) : GuardianRequestBuilder :=
  { self with request := insertKV self.request "tag" tag }

def GuardianRequestBuilder.ids (self : GuardianRequestBuilder)
    (ids : String) : GuardianRequestBuilder :=
  { self with request := insertKV self.request "ids" ids }

def GuardianRequestBuilder.production_office (self : GuardianRequestBuilder)
    (production_office : String) : GuardianRequestBuilder :=
  { self with request := insertKV self.request "production-office" production_office }

def GuardianRequestBuilder.lang (self : GuardianRequestBuilder)
    (lang : String) : GuardianRequestBuilder :=
  { self with request := insertKV self.request "lang" lang }

def GuardianRequestBuilder.star_rating (self : GuardianRequestBuilder)
    (star_rating : Nat) : GuardianRequestBuilder :=
  { self with request := insertKV self.request "star-rating" (toString star_rating) }

def GuardianRequestBuilder.tag_type (self : GuardianRequestBuilder)
    (type : String) : GuardianRequestBuilder :=
  { self with request := insertKV self.request "type" type }

def GuardianRequestBuilder.show_blocks (self : GuardianRequestBuilder)
    (show_blocks : List Enums.Block) : GuardianRequestBuilder :=
  { self with
    request := insertKV self.request "show-blocks" (helpers.generate_blocks show_blocks) }

/-! ### `GuardianRequestBuilder::send`

The outcome of one dispatch.  `network_called` records whether control
reached the network round trip; `request` is the builder's request map
after the call (`send` takes `&mut self`). -/

structure SendResult where
  result : Except Error Structs.SearchResponse
  request : RequestState
  network_called : Bool

/-- The endpoint-resolution `match` at the top of `send`: `Content` maps
to the literal path segment `search`, `Tags`/`Sections`/`Editions` to
their own wire token, and `SingleItem` to the value stored under `q`
(`None` meaning `Error::MissingQueryParameter("q")` is raised before the
network call). -/
def resolve_endpoint (b : GuardianRequestBuilder) : Option String :=
  match b.endpoint with
  | .Content => some "search"
  | .Tags => some b.endpoint.display
  | .Sections => some b.endpoint.display
  | .Editions => some b.endpoint.display
  | .SingleItem => lookupKV b.request "q"

/-- The internal-error probe of `send`: a payload whose `status` is the
literal `"error"` contributes its `message` (if any). -/
def internal_error : Option Structs.SearchResponse → Option String
  | some response_content =>
    if response_content.status = some "error" then response_content.message else none
  | none => none

/-- `GuardianRequestBuilder::send`, as a function of the builder state and
of the decoded envelope the transport/codec collaborators produce.  The
early `return Err(..)` paths leave `self.request` untouched;
`self.request.clear()` runs only on the fall-through success path. -/
def send (b : GuardianRequestBuilder) (decoded : Structs.Response) : SendResult :=
  match resolve_endpoint b with
  | none =>
    { result := .error (.MissingQueryParameter "q"), request := b.request,
      network_called := false }
  | some _endpoint =>
    -- the GET + JSON decode happen here and yield `decoded`
    match decoded.message with
    | some err =>
      { result := .error (.ApiError err), request := b.request, network_called := true }
    | none =>
      match internal_error decoded.response with
      | some message =>
        { result := .error (.ApiError message), request := b.request,
          network_called := true }
      | none =>
        -- self.request.clear()
        match decoded.response with
        | some r => { result := .ok r, request := [], network_called := true }
        | none =>
          { result := .ok helpers.mock_response, request := [], network_called := true }

/-! ## Helper lemmas -/

/-- Looking up a key right after inserting it yields the inserted value. -/
theorem lookup_insert_self (st : RequestState) (k v : String) :
    lookupKV (insertKV st k v) k = some v := by
  induction st with
  | nil => simp [insertKV, lookupKV]
  | cons kv rest ih =>
    obtain ⟨k0, v0⟩ := kv
    by_cases h : k0 = k
    · simp [insertKV, lookupKV, h]
    · simp [insertKV, lookupKV, h, ih]

/-- Keys present after an insert were the inserted key or already present. -/
theorem mem_keys_insert (st : RequestState) (k v x : String)
    (hx : x ∈ keysOf (insertKV st k v)) : x = k ∨ x ∈ keysOf st := by
  induction st with
  | nil => simpa [insertKV, keysOf] using hx
  | cons kv rest ih =>
    obtain ⟨k0, v0⟩ := kv
    by_cases h : k0 = k
    · simp only [insertKV, if_pos h, keysOf, List.map_cons, List.mem_cons] at hx ⊢
      rcases hx with hx | hx
      · exact Or.inl hx
      · exact Or.inr (Or.inr hx)
    · simp only [insertKV, if_neg h, keysOf, List.map_cons, List.mem_cons] at hx ⊢
      rcases hx with hx | hx
      · exact Or.inr (Or.inl hx)
      · rcases ih hx with hx | hx
        · exact Or.inl hx
        · exact Or.inr (Or.inr hx)

/-- `insertKV` preserves key uniqueness. -/
theorem nodup_keys_insert (st : RequestState) (k v : String)
    (h : (keysOf st).Nodup) : (keysOf (insertKV st k v)).Nodup := by
  induction st with
  | nil => simp [insertKV, keysOf]
  | cons kv rest ih =>
    obtain ⟨k0, v0⟩ := kv
    simp only [keysOf, List.map_cons, List.nodup_cons] at h
    by_cases hk : k0 = k
    · subst hk
      simpa [insertKV, keysOf, List.nodup_cons] using h
    · simp only [insertKV, if_neg hk, keysOf, List.map_cons, List.nodup_cons]
      refine ⟨fun hmem => ?_, ih h.2⟩
      rcases mem_keys_insert rest k v k0 hmem with hx | hx
      · exact hk hx
      · exact h.1 hx

/-- Unfolding equation for `String.intercalate.go` on `[]`. -/
theorem intercalate_go_nil (acc s : String) : String.intercalate.go acc s [] = acc := rfl

/-- Unfolding equation for `String.intercalate.go` on a cons. -/
theorem intercalate_go_cons (acc s a : String) (as : List String) :
    String.intercalate.go acc s (a :: as) = String.intercalate.go (acc ++ s ++ a) s as := rfl

/-- If some item of the collection satisfies `is_all`, the encoder loop
returns `"all"` no matter what has been accumulated so far. -/
theorem generate_sequence_loop_all {α : Type} [ToString α] [Enums.IsAll α] :
    ∀ (l : List α) (acc : String) (first : Bool) (a : α), a ∈ l →
      Enums.IsAll.is_all a = true → helpers.generate_sequence_loop l acc first = "all"
  | x :: rest, acc, first, a, ha, hall => by
    unfold helpers.generate_sequence_loop
    by_cases hx : Enums.IsAll.is_all x = true
    · simp [hx]
    · rcases List.mem_cons.mp ha with rfl | ha
      · exact absurd hall hx
      · simp only [hx, Bool.false_eq_true, if_false]
        exact generate_sequence_loop_all rest _ false a ha hall

/-- If no item satisfies `is_all`, the encoder loop with `first = false`
appends `","` and the wire token of each item, which is exactly
`String.intercalate.go`. -/
theorem generate_sequence_loop_join {α : Type} [ToString α] [Enums.IsAll α] :
    ∀ (l : List α) (acc : String), (∀ x ∈ l, Enums.IsAll.is_all x = false) →
      helpers.generate_sequence_loop l acc false =
        String.intercalate.go acc "," (l.map toString)
  | [], acc, _ => rfl
  | x :: rest, acc, h => by
    have hx : Enums.IsAll.is_all x = false := h x (List.mem_cons_self x rest)
    unfold helpers.generate_sequence_loop
    simp only [hx, Bool.false_eq_true, if_false, Bool.not_false, if_pos, List.map_cons,
      intercalate_go_cons]
    exact generate_sequence_loop_join rest (acc ++ "," ++ toString x)
      fun y hy => h y (List.mem_cons_of_mem x hy)

/-- `generate_sequence` returns `"all"` when the collection contains an
item satisfying `is_all`. -/
theorem generate_sequence_all {α : Type} [ToString α] [Enums.IsAll α]
    (l : List α) (a : α) (ha : a ∈ l) (hall : Enums.IsAll.is_all a = true) :
    helpers.generate_sequence l = "all" :=
  generate_sequence_loop_all l "" true a ha hall

/-- `generate_sequence` comma-joins the wire tokens when no item satisfies
`is_all`. -/
theorem generate_sequence_join {α : Type} [ToString α] [Enums.IsAll α]
    (l : List α) (h : ∀ x ∈ l, Enums.IsAll.is_all x = false) :
    helpers.generate_sequence l = String.intercalate "," (l.map toString) := by
  cases l with
  | nil => rfl
  | cons x rest =>
    have hx : Enums.IsAll.is_all x = false := h x (List.mem_cons_self x rest)
    unfold helpers.generate_sequence helpers.generate_sequence_loop
    simp only [hx, Bool.false_eq_true, if_false, Bool.not_true, if_neg]
    rw [generate_sequence_loop_join rest _ fun y hy => h y (List.mem_cons_of_mem x hy)]
    have hacc : ("" ++ "" ++ toString x) = toString x := by simp
    rw [hacc]
    rfl

/-- `Field.is_all` holds exactly on `Field.All`. -/
theorem field_is_all_iff (f : Enums.Field) :
    Enums.IsAll.is_all f = true ↔ f = Enums.Field.All := by
  simp [Enums.IsAll.is_all]

/-- `Tag.is_all` holds exactly on `Tag.All`. -/
theorem tag_is_all_iff (t : Enums.Tag) :
    Enums.IsAll.is_all t = true ↔ t = Enums.Tag.All := by
  simp [Enums.IsAll.is_all]

/-- `wrap32` is the identity on values already in `i32` range. -/
theorem wrap32_eq_self (n : Int) (h1 : -2147483648 ≤ n) (h2 : n < 2147483648) :
    Chrono.wrap32 n = n := by
  unfold Chrono.wrap32
  omega

/-- A string with the suffix `"+00:00"` is not empty. -/
theorem append_offset_ne_empty (p : String) : p ++ "+00:00" ≠ "" := by
  intro h
  have hlen := congrArg String.length h
  simp [String.length_append] at hlen
  exact absurd hlen.2 (by decide)

/-! ## Claims -/

/-- Claim C1 (the claim is what the source's own doc comment promises —
"Once this function is called, all the query parameters constructed via
the building methods are dropped" — but the two `return Err(ApiError)`
paths in `send` run before `self.request.clear()`): dispatching a builder
holding `q = "politics"` against an envelope carrying a top-level error
message reaches the network, fails with that `ApiError`, and leaves the
request map still holding the parameter instead of clearing it. -/
theorem send_api_error_preserves_request :
    (send ((build_request "test-api-key").search "politics")
        { message := some "Invalid request", response := none }).network_called = true ∧
    (send ((build_request "test-api-key").search "politics")
        { message := some "Invalid request", response := none }).result =
      .error (.ApiError "Invalid request") ∧
    (send ((build_request "test-api-key").search "politics")
        { message := some "Invalid request", response := none }).request =
      [("q", "politics")] ∧
    [("q", "politics")] ≠ ([] : RequestState) :=
  ⟨rfl, rfl, rfl, by decide⟩

/-- Claim C2, counterexample: the hour offset `268435457` has magnitude
far outside the representable fixed-offset range, yet
`timezone.abs() * 3600` wraps in `i32` arithmetic to `3600`, so
`helpers::datetime` formats with offset `+01:00` — the formatter does not
clamp to UTC and the stored `from-date` value does not end in
`"+00:00"`. -/
theorem datetime_offset_overflow_not_clamped :
    23 < (268435457 : Int).natAbs ∧
    helpers.datetime 2021 12 31 0 0 0 268435457 = "2021-12-31T00:00:00+01:00" ∧
    lookupKV ((build_request "test-api-key").datetime_from
        2021 12 31 0 0 0 268435457).request "from-date" =
      some "2021-12-31T00:00:00+01:00" ∧
    ¬ ∃ p : String, "2021-12-31T00:00:00+01:00" = p ++ "+00:00" := by
  refine ⟨by decide, by decide, by decide, ?_⟩
  rintro ⟨p, hp⟩
  have hd : p.data ++ "+00:00".data = "2021-12-31T00:00:00+01:00".data := by
    rw [← String.data_append, ← hp]
  have hlen : p.data.length + 6 = 25 := by
    have := congrArg List.length hd
    simpa using this
  have hdrop : ("2021-12-31T00:00:00+01:00".data).drop p.data.length = "+00:00".data := by
    rw [← hd, List.drop_left]
  rw [show p.data.length = 19 by omega] at hdrop
  revert hdrop
  decide

/-- Claim C2, amended: for every hour offset whose magnitude is at least
24 (outside the representable fixed-offset range) and at most 596523 (so
that `|timezone| * 3600` still fits in `i32` and does not wrap), and every
calendar date-time that is a single valid instant at the zero offset,
`datetime_from`/`datetime_to` do not fail: the offset is clamped to zero
(UTC) and the date key is set to a timestamp ending in `"+00:00"`. -/
theorem datetime_out_of_range_offset_clamps_to_utc
    (b : GuardianRequestBuilder) (timezone year : Int) (month day hour minute sec : Nat)
    (h24 : 24 ≤ timezone.natAbs) (hfit : timezone.natAbs ≤ 596523)
    (hsingle : Chrono.with_ymd_and_hms_is_single 0 year month day hour minute sec = true) :
    helpers.resolved_offset timezone = 0 ∧
    ∃ p : String,
      helpers.datetime year month day hour minute sec timezone = p ++ "+00:00" ∧
      lookupKV (b.datetime_from year month day hour minute sec timezone).request
        "from-date" = some (p ++ "+00:00") ∧
      lookupKV (b.datetime_to year month day hour minute sec timezone).request
        "to-date" = some (p ++ "+00:00") := by
  have habs : Chrono.i32_abs timezone = (timezone.natAbs : Int) := by
    unfold Chrono.i32_abs Chrono.wrap32
    omega
  have hmul : Chrono.i32_mul (timezone.natAbs : Int) 3600 = (timezone.natAbs : Int) * 3600 := by
    unfold Chrono.i32_mul Chrono.wrap32
    omega
  have hbig : 86400 ≤ (timezone.natAbs : Int) * 3600 := by omega
  have hsmall : (timezone.natAbs : Int) * 3600 < 2147483648 := by omega
  have heast : Chrono.east_opt ((timezone.natAbs : Int) * 3600) = none := by
    unfold Chrono.east_opt
    rw [if_neg]
    omega
  have hwest : Chrono.west_opt ((timezone.natAbs : Int) * 3600) = none := by
    unfold Chrono.west_opt
    rw [if_neg]
    omega
  have hoff : helpers.resolved_offset timezone = 0 := by
    simp only [helpers.resolved_offset, habs, hmul]
    by_cases hs : 0 ≤ timezone
    · rw [if_pos hs, heast]
    · rw [if_neg hs, hwest]
  have hfmt : helpers.datetime year month day hour minute sec timezone =
      Chrono.to_rfc3339 year month day hour minute sec 0 := by
    simp only [helpers.datetime, hoff, hsingle, if_true]
  refine ⟨hoff, Chrono.format_year year ++ "-" ++ Chrono.pad2 month ++ "-" ++
    Chrono.pad2 day ++ "T" ++ Chrono.pad2 hour ++ ":" ++ Chrono.pad2 minute ++ ":" ++
    Chrono.pad2 sec, ?_, ?_, ?_⟩
  · rw [hfmt]
    rfl
  · unfold GuardianRequestBuilder.datetime_from
    rw [hfmt]
    rw [if_neg (by exact append_offset_ne_empty _)]
    exact lookup_insert_self ..
  · unfold GuardianRequestBuilder.datetime_to
    rw [hfmt]
    rw [if_neg (by exact append_offset_ne_empty _)]
    exact lookup_insert_self ..

/-- Claim C2, witness: the out-of-range offset `999` on `2021-12-31
00:00:00` clamps to UTC and stores a `"+00:00"` timestamp. -/
theorem datetime_clamp_witness :
    helpers.resolved_offset 999 = 0 ∧
    ∃ p : String,
      helpers.datetime 2021 12 31 0 0 0 999 = p ++ "+00:00" ∧
      lookupKV ((build_request "test-api-key").datetime_from
        2021 12 31 0 0 0 999).request "from-date" = some (p ++ "+00:00") ∧
      lookupKV ((build_request "test-api-key").datetime_to
        2021 12 31 0 0 0 999).request "to-date" = some (p ++ "+00:00") :=
  datetime_out_of_range_offset_clamps_to_utc (build_request "test-api-key")
    999 2021 12 31 0 0 0 (by decide) (by decide) (by decide)

/-- Claim C3: for `Field` and `Tag` collections, `generate_sequence`
returns exactly `"all"` whenever the collection contains the `All`
variant, regardless of position or co-members; otherwise it returns the
comma-joined wire tokens of the members, in input order, duplicates
preserved. -/
theorem generate_sequence_wildcard_and_join
    (fs : List Enums.Field) (ts : List Enums.Tag) :
    (Enums.Field.All ∈ fs → helpers.generate_sequence fs = "all") ∧
    (Enums.Field.All ∉ fs →
      helpers.generate_sequence fs = String.intercalate "," (fs.map Enums.Field.display)) ∧
    (Enums.Tag.All ∈ ts → helpers.generate_sequence ts = "all") ∧
    (Enums.Tag.All ∉ ts →
      helpers.generate_sequence ts = String.intercalate "," (ts.map Enums.Tag.display)) := by
  refine ⟨fun h => ?_, fun h => ?_, fun h => ?_, fun h => ?_⟩
  · exact generate_sequence_all fs _ h ((field_is_all_iff _).mpr rfl)
  · exact generate_sequence_join fs fun x hx => by
      rcases Bool.eq_false_or_eq_true (Enums.IsAll.is_all x) with htr | hf
      · exact absurd (((field_is_all_iff x).mp htr) ▸ hx) h
      · exact hf
  · exact generate_sequence_all ts _ h ((tag_is_all_iff _).mpr rfl)
  · exact generate_sequence_join ts fun x hx => by
      rcases Bool.eq_false_or_eq_true (Enums.IsAll.is_all x) with htr | hf
      · exact absurd (((tag_is_all_iff x).mp htr) ▸ hx) h
      · exact hf

/-- Claim C3, witness: the concrete collections used by the repository's
tests. -/
theorem generate_sequence_wildcard_and_join_witness :
    helpers.generate_sequence [Enums.Field.ShortUrl, Enums.Field.Byline,
      Enums.Field.StarRating] = "shortUrl,byline,starRating" ∧
    helpers.generate_sequence [Enums.Field.ShortUrl, Enums.Field.Byline,
      Enums.Field.StarRating, Enums.Field.All] = "all" ∧
    helpers.generate_sequence [Enums.Tag.Blog, Enums.Tag.Contributor] = "blog,contributor" :=
  ⟨((generate_sequence_wildcard_and_join
      [Enums.Field.ShortUrl, Enums.Field.Byline, Enums.Field.StarRating] []).2.1
      (by decide)).trans (by decide),
   (generate_sequence_wildcard_and_join
      [Enums.Field.ShortUrl, Enums.Field.Byline, Enums.Field.StarRating, Enums.Field.All]
      []).1 (by decide),
   ((generate_sequence_wildcard_and_join []
      [Enums.Tag.Blog, Enums.Tag.Contributor]).2.2.2 (by decide)).trans (by decide)⟩

/-- Claim C4: `generate_blocks` yields exactly `"all"` for any collection
containing `Block::All`, and otherwise comma-joins the independent
encodings of the members, where `BodyOldest` encodes to `"body:latest"`
(mirroring the source), `BodyOldestWith(n)` to `"body:oldest:n"`,
`BodyAroundBlockIdWith(id, n)` to `"body:around:id:n"`, and
`BodyPublishedSince(ts)` to `"body:published-since:ts"`. -/
theorem generate_blocks_encoding (l : List Enums.Block) :
    (Enums.Block.All ∈ l → helpers.generate_blocks l = "all") ∧
    (Enums.Block.All ∉ l →
      helpers.generate_blocks l = String.intercalate "," (l.map helpers.encode_block)) ∧
    helpers.encode_block Enums.Block.BodyOldest = "body:latest" ∧
    (∀ n : Int, helpers.encode_block (Enums.Block.BodyOldestWith n) =
      "body:oldest:" ++ toString n) ∧
    (∀ (id : String) (n : Int), helpers.encode_block (Enums.Block.BodyAroundBlockIdWith id n) =
      "body:around:" ++ id ++ ":" ++ toString n) ∧
    (∀ ts : Int, helpers.encode_block (Enums.Block.BodyPublishedSince ts) =
      "body:published-since:" ++ toString ts) := by
  refine ⟨fun h => ?_, fun h => ?_, rfl, fun n => rfl, fun id n => rfl, fun ts => rfl⟩
  · unfold helpers.generate_blocks
    rw [if_pos h]
  · unfold helpers.generate_blocks
    rw [if_neg h]

/-- Claim C4, witness: the concrete block collections used by the
repository's tests, plus a wildcard case. -/
theorem generate_blocks_encoding_witness :
    helpers.generate_blocks [Enums.Block.BodyPublishedSince 123456,
      Enums.Block.BodyKeyEvents] = "body:published-since:123456,body:key-events" ∧
    helpers.generate_blocks [Enums.Block.BodyAroundBlockIdWith "123456789" 10] =
      "body:around:123456789:10" ∧
    helpers.generate_blocks [Enums.Block.BodyPublishedSince 123456, Enums.Block.All] = "all" :=
  ⟨((generate_blocks_encoding
      [Enums.Block.BodyPublishedSince 123456, Enums.Block.BodyKeyEvents]).2.1
      (by decide)).trans (by decide),
   ((generate_blocks_encoding [Enums.Block.BodyAroundBlockIdWith "123456789" 10]).2.1
      (by decide)).trans (by decide),
   (generate_blocks_encoding
      [Enums.Block.BodyPublishedSince 123456, Enums.Block.All]).1 (by decide)⟩

/-- Claim C5: for every decoded envelope, a dispatch that reaches the
network classifies it as: top-level message present fails with that
`ApiError`; else a payload whose internal status is `"error"` with an
internal message present fails with that internal message; else a present
payload succeeds as-is; and when both top-level message and payload are
absent it succeeds with the empty/default payload. -/
theorem send_envelope_classification
    (b : GuardianRequestBuilder) (decoded : Structs.Response)
    (hnet : (send b decoded).network_called = true) :
    (∀ err, decoded.message = some err →
      (send b decoded).result = .error (.ApiError err)) ∧
    (∀ rc msg, decoded.message = none → decoded.response = some rc →
      rc.status = some "error" → rc.message = some msg →
      (send b decoded).result = .error (.ApiError msg)) ∧
    (∀ rc, decoded.message = none → decoded.response = some rc →
      ¬(rc.status = some "error" ∧ rc.message ≠ none) →
      (send b decoded).result = .ok rc) ∧
    (decoded.message = none → decoded.response = none →
      (send b decoded).result = .ok helpers.mock_response) := by
  rcases hre : resolve_endpoint b with _ | e
  · rw [show (send b decoded).network_called = false by unfold send; rw [hre]] at hnet
    exact absurd hnet (by decide)
  · obtain ⟨dmsg, dresp⟩ := decoded
    refine ⟨fun err herr => ?_, fun rc msg hm hr hs hmsg => ?_,
      fun rc hm hr hne => ?_, fun hm hr => ?_⟩
    · simp only at herr
      unfold send
      rw [hre, herr]
    · simp only at hm hr
      unfold send
      rw [hre, hm, show internal_error dresp = some msg by
        rw [hr]; simp only [internal_error]; rw [if_pos hs]; exact hmsg]
    · simp only at hm hr
      have hie : internal_error dresp = none := by
        rw [hr]
        simp only [internal_error]
        by_cases hs : rc.status = some "error"
        · rw [if_pos hs]
          by_contra hx
          exact hne ⟨hs, fun hnone => (hnone ▸ hx) rfl⟩
        · rw [if_neg hs]
      unfold send
      rw [hre, hm, hie, hr]
    · simp only at hm hr
      have hie : internal_error dresp = none := by rw [hr]; rfl
      unfold send
      rw [hre, hm, hie, hr]

/-- Claim C5, witness: the four classifications at concrete envelopes. -/
theorem send_envelope_classification_witness :
    (send ((build_request "test-api-key").search "politics")
        { message := some "top-level failure", response := none }).result =
      .error (.ApiError "top-level failure") ∧
    (send ((build_request "test-api-key").search "politics")
        { message := none,
          response := some { helpers.mock_response with
            status := some "error", message := some "internal failure" } }).result =
      .error (.ApiError "internal failure") ∧
    (send ((build_request "test-api-key").search "politics")
        { message := none,
          response := some { helpers.mock_response with status := some "ok" } }).result =
      .ok { helpers.mock_response with status := some "ok" } ∧
    (send ((build_request "test-api-key").search "politics")
        { message := none, response := none }).result = .ok helpers.mock_response :=
  ⟨(send_envelope_classification ((build_request "test-api-key").search "politics")
      { message := some "top-level failure", response := none } rfl).1
      "top-level failure" rfl,
   (send_envelope_classification ((build_request "test-api-key").search "politics")
      { message := none,
        response := some { helpers.mock_response with
          status := some "error", message := some "internal failure" } } rfl).2.1
      _ "internal failure" rfl rfl rfl rfl,
   (send_envelope_classification ((build_request "test-api-key").search "politics")
      { message := none,
        response := some { helpers.mock_response with status := some "ok" } } rfl).2.2.1
      _ rfl rfl (by simp),
   (send_envelope_classification ((build_request "test-api-key").search "politics")
      { message := none, response := none } rfl).2.2.2 rfl rfl⟩

/-- Claim C6: a builder targeting `SingleItem` with no `"q"` entry fails
with `MissingQueryParameter("q")` before any network call, leaving the
request map unchanged. -/
theorem send_single_item_missing_q
    (b : GuardianRequestBuilder) (decoded : Structs.Response)
    (hend : b.endpoint = Enums.Endpoint.SingleItem)
    (hq : lookupKV b.request "q" = none) :
    (send b decoded).result = .error (.MissingQueryParameter "q") ∧
    (send b decoded).network_called = false ∧
    (send b decoded).request = b.request := by
  have hre : resolve_endpoint b = none := by
    unfold resolve_endpoint
    rw [hend]
    exact hq
  unfold send
  rw [hre]
  exact ⟨rfl, rfl, rfl⟩

/-- Claim C6, witness: a fresh `SingleItem` builder with no search term. -/
theorem send_single_item_missing_q_witness :
    (send ((build_request "test-api-key").set_endpoint Enums.Endpoint.SingleItem)
        { message := none, response := none }).result =
      .error (.MissingQueryParameter "q") ∧
    (send ((build_request "test-api-key").set_endpoint Enums.Endpoint.SingleItem)
        { message := none, response := none }).network_called = false ∧
    (send ((build_request "test-api-key").set_endpoint Enums.Endpoint.SingleItem)
        { message := none, response := none }).request =
      ((build_request "test-api-key").set_endpoint Enums.Endpoint.SingleItem).request :=
  send_single_item_missing_q
    ((build_request "test-api-key").set_endpoint Enums.Endpoint.SingleItem)
    { message := none, response := none } rfl rfl

/-- Claim C7: whenever the year/month/day/hour/minute/second combination
does not denote a single valid local instant under the resolved offset,
the datetime formatter returns the empty string and
`datetime_from`/`datetime_to` leave the builder — in particular the
`from-date`/`to-date` keys — unchanged. -/
theorem datetime_invalid_input_leaves_key_unset
    (b : GuardianRequestBuilder) (year : Int) (month day hour minute sec : Nat)
    (timezone : Int)
    (hsingle : Chrono.with_ymd_and_hms_is_single (helpers.resolved_offset timezone)
      year month day hour minute sec = false) :
    helpers.datetime year month day hour minute sec timezone = "" ∧
    b.datetime_from year month day hour minute sec timezone = b ∧
    b.datetime_to year month day hour minute sec timezone = b ∧
    (lookupKV b.request "from-date" = none →
      lookupKV (b.datetime_from year month day hour minute sec timezone).request
        "from-date" = none) ∧
    (lookupKV b.request "to-date" = none →
      lookupKV (b.datetime_to year month day hour minute sec timezone).request
        "to-date" = none) := by
  have hempty : helpers.datetime year month day hour minute sec timezone = "" := by
    simp only [helpers.datetime, hsingle, Bool.false_eq_true, if_false]
  have hfrom : b.datetime_from year month day hour minute sec timezone = b := by
    unfold GuardianRequestBuilder.datetime_from
    rw [hempty]
    rfl
  have hto : b.datetime_to year month day hour minute sec timezone = b := by
    unfold GuardianRequestBuilder.datetime_to
    rw [hempty]
    rfl
  refine ⟨hempty, hfrom, hto, fun h => ?_, fun h => ?_⟩
  · rw [hfrom]
    exact h
  · rw [hto]
    exact h

/-- Claim C7, witness: the invalid calendar input month 13 / day 40 /
minute 999 (as in the repository's tests) sets nothing. -/
theorem datetime_invalid_input_witness :
    helpers.datetime 2021 13 40 0 999 0 5 = "" ∧
    (build_request "test-api-key").datetime_from 2021 13 40 0 999 0 5 =
      build_request "test-api-key" ∧
    (build_request "test-api-key").datetime_to 2021 13 40 0 999 0 5 =
      build_request "test-api-key" ∧
    (lookupKV (build_request "test-api-key").request "from-date" = none →
      lookupKV ((build_request "test-api-key").datetime_from 2021 13 40 0 999 0 5).request
        "from-date" = none) ∧
    (lookupKV (build_request "test-api-key").request "to-date" = none →
      lookupKV ((build_request "test-api-key").datetime_to 2021 13 40 0 999 0 5).request
        "to-date" = none) :=
  datetime_invalid_input_leaves_key_unset (build_request "test-api-key")
    2021 13 40 0 999 0 5 (by decide)

/-- Claim C8: `date_from`/`date_to` store the year, month and day in plain
decimal joined by hyphens, without zero-padding; in particular
`date_from(2020, 1, 1)` stores exactly `"2020-1-1"`. -/
theorem date_from_date_to_plain_decimal
    (b : GuardianRequestBuilder) (year : Int) (month day : Nat) :
    lookupKV (b.date_from year month day).request "from-date" =
      some (toString year ++ "-" ++ toString month ++ "-" ++ toString day) ∧
    lookupKV (b.date_to year month day).request "to-date" =
      some (toString year ++ "-" ++ toString month ++ "-" ++ toString day) ∧
    lookupKV (b.date_from 2020 1 1).request "from-date" = some "2020-1-1" ∧
    lookupKV (b.date_to 2020 1 1).request "to-date" = some "2020-1-1" := by
  refine ⟨lookup_insert_self .., lookup_insert_self .., ?_, ?_⟩
  · exact (lookup_insert_self ..).trans (by decide)
  · exact (lookup_insert_self ..).trans (by decide)

/-- Claim C9: inserting twice under one key keeps only the last value,
key uniqueness of the request map is preserved by every insert, and the
`order_by(Oldest)`-then-`order_by(Newest)` scenario ends with `"order-by"`
mapped to `"newest"`. -/
theorem request_insert_overwrites :
    (∀ (st : RequestState) (k v1 v2 : String),
      lookupKV (insertKV (insertKV st k v1) k v2) k = some v2) ∧
    (∀ (st : RequestState) (k v : String),
      (keysOf st).Nodup → (keysOf (insertKV st k v)).Nodup) ∧
    (∀ b : GuardianRequestBuilder,
      lookupKV ((b.order_by Enums.OrderBy.Oldest).order_by Enums.OrderBy.Newest).request
        "order-by" = some "newest") :=
  ⟨fun st k _ v2 => lookup_insert_self (insertKV st k _) k v2,
   fun st k v h => nodup_keys_insert st k v h,
   fun _ => lookup_insert_self ..⟩

/-- Claim C9, witness: overwrite and key-uniqueness at concrete states,
and the concrete `order_by` scenario on a fresh builder with key
`"test-api-key"`. -/
theorem request_insert_overwrites_witness :
    lookupKV (insertKV (insertKV [] "q" "first") "q" "second") "q" = some "second" ∧
    (keysOf (insertKV [("page", "10")] "order-by" "oldest")).Nodup ∧
    lookupKV (((build_request "test-api-key").order_by Enums.OrderBy.Oldest).order_by
      Enums.OrderBy.Newest).request "order-by" = some "newest" :=
  ⟨request_insert_overwrites.1 [] "q" "first" "second",
   request_insert_overwrites.2.1 [("page", "10")] "order-by" "oldest" (by decide),
   request_insert_overwrites.2.2 (build_request "test-api-key")⟩

/-- Claim C10: an envelope with no top-level message whose payload has
internal status `"error"` but no internal message does not fail: `send`
clears the request map and returns that payload. -/
theorem send_internal_error_without_message_succeeds
    (b : GuardianRequestBuilder) (decoded : Structs.Response)
    (rc : Structs.SearchResponse)
    (hnet : (send b decoded).network_called = true)
    (hm : decoded.message = none) (hr : decoded.response = some rc)
    (hs : rc.status = some "error") (hmsg : rc.message = none) :
    (send b decoded).result = .ok rc ∧ (send b decoded).request = [] := by
  rcases hre : resolve_endpoint b with _ | e
  · rw [show (send b decoded).network_called = false by unfold send; rw [hre]] at hnet
    exact absurd hnet (by decide)
  · have hie : internal_error decoded.response = none := by
      rw [hr]
      show (if rc.status = some "error" then rc.message else none) = none
      rw [if_pos hs]
      exact hmsg
    constructor
    · unfold send
      rw [hre, hm, hie, hr]
    · unfold send
      rw [hre, hm, hie, hr]

/-- Claim C10, witness: a concrete `status = "error"` payload with no
internal message is returned as a success and the request map is
cleared. -/
theorem send_internal_error_no_message_witness :
    (send ((build_request "test-api-key").search "politics")
        { message := none,
          response := some { helpers.mock_response with status := some "error" } }).result =
      .ok { helpers.mock_response with status := some "error" } ∧
    (send ((build_request "test-api-key").search "politics")
        { message := none,
          response := some { helpers.mock_response with status := some "error" } }).request =
      [] :=
  send_internal_error_without_message_succeeds
    ((build_request "test-api-key").search "politics")
    { message := none,
      response := some { helpers.mock_response with status := some "error" } }
    { helpers.mock_response with status := some "error" } rfl rfl rfl rfl rfl

end Aletheia
